import Mathlib

/-!
Shallow embedding of `src/responses.rs` of the hzgrow-r502 repository:
the response decoders for the R502 fingerprint sensor.

Bytes are modelled as `Nat`; a payload is a `List Nat`. Rust code that can
panic (slice indexing out of bounds, `byteorder` reads on too-short buffers,
the `panic!` arms of the byte-to-enum matches) is modelled with the explicit
outcome type `ROut`, whose `panicked` constructor records that the Rust code
aborts at that point instead of returning a value. All accesses are checked,
so the embedding never looks at a byte past the end of the supplied buffer:
an access that would do so in unchecked code yields `ROut.panicked` instead.
-/

/-- Outcome of running a piece of Rust code that may panic: either a
returned value, or a panic (process abort / unwind) with its message. -/
inductive ROut (α : Type) : Type where
  | ok : α → ROut α
  | panicked : String → ROut α
deriving Repr, DecidableEq

/-- Sequencing of possibly-panicking computations: a panic propagates. -/
def ROut.bind {α β : Type} : ROut α → (α → ROut β) → ROut β
  | .ok a, f => f a
  | .panicked m, _ => .panicked m

/-- True when the outcome is a panic, i.e. the Rust code aborts
instead of returning a value. -/
def ROut.isPanicked {α : Type} : ROut α → Bool
  | .ok _ => false
  | .panicked _ => true

/-- True when the outcome is a returned value. -/
def ROut.isOk {α : Type} : ROut α → Bool
  | .ok _ => true
  | .panicked _ => false

/-- Take exactly `n` elements from the front of a list; `none` when the
list is shorter than `n`. Used to model checked slicing. -/
def takeExact : Nat → List Nat → Option (List Nat)
  | 0, _ => some []
  | _ + 1, [] => none
  | n + 1, x :: xs => (takeExact n xs).map (fun l => x :: l)

/-- Model of the Rust slice expression `payload[a..b]`: panics when the
range is inverted or when `b` exceeds the length of the slice; otherwise
returns the elements at indices `a, a+1, ..., b-1`. -/
def sliceIdx (p : List Nat) (a b : Nat) : ROut (List Nat) :=
  if a ≤ b then
    match takeExact (b - a) (p.drop a) with
    | some l => ROut.ok l
    | none => ROut.panicked "range end index out of bounds"
  else ROut.panicked "slice index starts at after slice end"

/-- Model of the Rust index expression `payload[i]` on a byte slice:
panics when `i` is out of bounds. -/
def getIdx : List Nat → Nat → ROut Nat
  | [], _ => ROut.panicked "index out of bounds"
  | x :: _, 0 => ROut.ok x
  | _ :: xs, n + 1 => getIdx xs n

/-- Model of `byteorder::BigEndian::read_u16`: reads the first two bytes
of the buffer most-significant-byte-first; panics when the buffer holds
fewer than two bytes. -/
def read_u16 (buf : List Nat) : ROut Nat :=
  match buf with
  | b0 :: b1 :: _ => ROut.ok (b0 * 256 + b1)
  | _ => ROut.panicked "read_u16 needs a buffer of at least 2 bytes"

/-- Model of `byteorder::BigEndian::read_u32`: reads the first four bytes
of the buffer most-significant-byte-first; panics when the buffer holds
fewer than four bytes. -/
def read_u32 (buf : List Nat) : ROut Nat :=
  match buf with
  | b0 :: b1 :: b2 :: b3 :: _ =>
      ROut.ok (((b0 * 256 + b1) * 256 + b2) * 256 + b3)
  | _ => ROut.panicked "read_u32 needs a buffer of at least 4 bytes"

/-- System status and configuration (struct `SystemParameters`). -/
structure SystemParameters : Type where
  status_register : Nat
  system_identifier_code : Nat
  finger_library_size : Nat
  security_level : Nat
  device_address : Nat
  packet_size : Nat
  baud_setting : Nat
deriving Repr, DecidableEq

/-- Method `SystemParameters::busy`: tests bit 0 of the status register. -/
def SystemParameters.busy (self : SystemParameters) : Bool :=
  self.status_register &&& (1 <<< 0) != 0

/-- Method `SystemParameters::has_finger_match`: tests bit 1 of the
status register. -/
def SystemParameters.has_finger_match (self : SystemParameters) : Bool :=
  self.status_register &&& (1 <<< 1) != 0

/-- Method `SystemParameters::password_ok`: tests bit 2 of the status
register. -/
def SystemParameters.password_ok (self : SystemParameters) : Bool :=
  self.status_register &&& (1 <<< 2) != 0

/-- Method `SystemParameters::has_valid_image`: tests bit 3 of the status
register. -/
def SystemParameters.has_valid_image (self : SystemParameters) : Bool :=
  self.status_register &&& (1 <<< 3) != 0

/-- `SystemParameters::from_payload`: seven fixed-offset big-endian reads
from the 16-byte body, in the source order of the struct literal.
`baud_setting` is `read_u16` applied to the slice `payload[12..16]`, which
consumes the first two bytes of that slice. -/
def SystemParameters.from_payload (payload : List Nat) : ROut SystemParameters :=
  (sliceIdx payload 0 2).bind fun s0 =>
  (read_u16 s0).bind fun status_register =>
  (sliceIdx payload 2 4).bind fun s1 =>
  (read_u16 s1).bind fun system_identifier_code =>
  (sliceIdx payload 4 6).bind fun s2 =>
  (read_u16 s2).bind fun finger_library_size =>
  (sliceIdx payload 6 8).bind fun s3 =>
  (read_u16 s3).bind fun security_level =>
  (sliceIdx payload 8 12).bind fun s4 =>
  (read_u32 s4).bind fun device_address =>
  (sliceIdx payload 12 14).bind fun s5 =>
  (read_u16 s5).bind fun packet_size =>
  (sliceIdx payload 12 16).bind fun s6 =>
  (read_u16 s6).bind fun baud_setting =>
  ROut.ok {
    status_register := status_register,
    system_identifier_code := system_identifier_code,
    finger_library_size := finger_library_size,
    security_level := security_level,
    device_address := device_address,
    packet_size := packet_size,
    baud_setting := baud_setting }

/-- Struct `ReadSysParaResult`. -/
structure ReadSysParaResult : Type where
  address : Nat
  confirmation_code : Nat
  system_parameters : SystemParameters
  checksum : Nat
deriving Repr, DecidableEq

/-- `ReadSysParaResult::from_payload`: reads, in the source order of the
struct literal, the address from `payload[2..6]`, the confirmation code
as the raw byte `payload[9]`, the checksum from `payload[26..28]`, and the
system parameters by decoding the sub-slice `payload[10..26]`. -/
def ReadSysParaResult.from_payload (payload : List Nat) : ROut ReadSysParaResult :=
  (sliceIdx payload 2 6).bind fun a0 =>
  (read_u32 a0).bind fun address =>
  (getIdx payload 9).bind fun confirmation_code =>
  (sliceIdx payload 26 28).bind fun c0 =>
  (read_u16 c0).bind fun checksum =>
  (sliceIdx payload 10 26).bind fun body =>
  (SystemParameters.from_payload body).bind fun system_parameters =>
  ROut.ok {
    address := address,
    confirmation_code := confirmation_code,
    system_parameters := system_parameters,
    checksum := checksum }

/-- Enum `PasswordVerificationState` for the password handshake result. -/
inductive PasswordVerificationState : Type where
  | Correct
  | Incorrect
  | Error
deriving Repr, DecidableEq

/-- `PasswordVerificationState::from` (named `fromByte` here because `from`
is a reserved word in Lean): matches the byte against the three known
codes and panics on any other byte. -/
def PasswordVerificationState.fromByte (byte : Nat) : ROut PasswordVerificationState :=
  if byte = 0x00 then ROut.ok PasswordVerificationState.Correct
  else if byte = 0x13 then ROut.ok PasswordVerificationState.Incorrect
  else if byte = 0x01 then ROut.ok PasswordVerificationState.Error
  else ROut.panicked "Invalid VfyPwdResult"

/-- Enum `GenImgStatus` for the fingerprint capture result. -/
inductive GenImgStatus : Type where
  | Success
  | PacketError
  | FingerNotDetected
  | ImageNotCaptured
deriving Repr, DecidableEq

/-- `GenImgStatus::from` (named `fromByte` here because `from` is a
reserved word in Lean): matches the byte against the four known codes and
panics on any other byte. -/
def GenImgStatus.fromByte (byte : Nat) : ROut GenImgStatus :=
  if byte = 0x00 then ROut.ok GenImgStatus.Success
  else if byte = 0x01 then ROut.ok GenImgStatus.PacketError
  else if byte = 0x02 then ROut.ok GenImgStatus.FingerNotDetected
  else if byte = 0x03 then ROut.ok GenImgStatus.ImageNotCaptured
  else ROut.panicked "Invalid GenImgStatus"

/-- Struct `VfyPwdResult`. -/
structure VfyPwdResult : Type where
  address : Nat
  confirmation_code : PasswordVerificationState
  checksum : Nat
deriving Repr, DecidableEq

/-- `VfyPwdResult::from_payload`. -/
def VfyPwdResult.from_payload (payload : List Nat) : ROut VfyPwdResult :=
  (sliceIdx payload 2 6).bind fun a0 =>
  (read_u32 a0).bind fun address =>
  (getIdx payload 9).bind fun byte =>
  (PasswordVerificationState.fromByte byte).bind fun confirmation_code =>
  (sliceIdx payload 10 12).bind fun c0 =>
  (read_u16 c0).bind fun checksum =>
  ROut.ok {
    address := address,
    confirmation_code := confirmation_code,
    checksum := checksum }

/-- Struct `GenImgResult`. -/
structure GenImgResult : Type where
  address : Nat
  confirmation_code : GenImgStatus
  checksum : Nat
deriving Repr, DecidableEq

/-- `GenImgResult::from_payload`. -/
def GenImgResult.from_payload (payload : List Nat) : ROut GenImgResult :=
  (sliceIdx payload 2 6).bind fun a0 =>
  (read_u32 a0).bind fun address =>
  (getIdx payload 9).bind fun byte =>
  (GenImgStatus.fromByte byte).bind fun confirmation_code =>
  (sliceIdx payload 10 12).bind fun c0 =>
  (read_u16 c0).bind fun checksum =>
  ROut.ok {
    address := address,
    confirmation_code := confirmation_code,
    checksum := checksum }

/-- A `SystemParameters` value carrying the given status register, with
all other fields zero; used to state facts about the bit predicates. -/
def withStatus (s : Nat) : SystemParameters :=
  { status_register := s,
    system_identifier_code := 0,
    finger_library_size := 0,
    security_level := 0,
    device_address := 0,
    packet_size := 0,
    baud_setting := 0 }

/-- A bit-masking test equals the corresponding `Nat.testBit`. -/
theorem mask_ne_eq_testBit (s k : Nat) : (s &&& (1 <<< k) != 0) = s.testBit k := by
  rw [Nat.shiftLeft_eq, one_mul]
  cases h : s.testBit k with
  | false => simp [Nat.and_two_pow, h]
  | true => simp [Nat.and_two_pow, h, Nat.pos_iff_ne_zero.mp (Nat.two_pow_pos k)]

/-- A panicking step makes the whole chain panic. -/
theorem bind_isPanicked_of_left {α β : Type} (x : ROut α) (f : α → ROut β)
    (h : x.isPanicked = true) : (x.bind f).isPanicked = true := by
  cases x with
  | ok a => simp [ROut.isPanicked] at h
  | panicked m => rfl

/-- If every continuation panics, the chain panics. -/
theorem bind_isPanicked_of_forall {α β : Type} (x : ROut α) (f : α → ROut β)
    (h : ∀ a, (f a).isPanicked = true) : (x.bind f).isPanicked = true := by
  cases x with
  | ok a => exact h a
  | panicked m => rfl

/-- Taking more elements than a list has fails. -/
theorem takeExact_eq_none (n : Nat) (xs : List Nat) (h : xs.length < n) :
    takeExact n xs = none := by
  induction n generalizing xs with
  | zero => omega
  | succ n ih =>
    cases xs with
    | nil => rfl
    | cons x xs =>
      simp only [List.length_cons] at h
      simp [takeExact, ih xs (by omega)]

/-- C1: for every 16-byte system-parameters body, `SystemParameters.from_payload`
returns the seven fields read big-endian at the documented offsets:
status_register from bytes 0-2, system_identifier_code from bytes 2-4,
finger_library_size from bytes 4-6, security_level from bytes 6-8,
device_address from bytes 8-12 (32-bit), packet_size from bytes 12-14, and
baud_setting as the 16-bit unsigned value read from the range 12-16 (the
16-bit read of that range consumes its first two bytes, 12-14). -/
theorem systemParameters_from_payload_fields
    (b0 b1 b2 b3 b4 b5 b6 b7 b8 b9 b10 b11 b12 b13 b14 b15 : Nat) :
    SystemParameters.from_payload
      [b0, b1, b2, b3, b4, b5, b6, b7, b8, b9, b10, b11, b12, b13, b14, b15] =
    ROut.ok {
      status_register := b0 * 256 + b1,
      system_identifier_code := b2 * 256 + b3,
      finger_library_size := b4 * 256 + b5,
      security_level := b6 * 256 + b7,
      device_address := ((b8 * 256 + b9) * 256 + b10) * 256 + b11,
      packet_size := b12 * 256 + b13,
      baud_setting := b12 * 256 + b13 } := rfl

/-- C2: for every payload of at least 28 bytes, `ReadSysParaResult.from_payload`
returns the big-endian 32-bit address from bytes 2-6, the raw confirmation
byte at offset 9, the system parameters obtained by applying
`SystemParameters.from_payload` to bytes 10-26, and the big-endian 16-bit
checksum from bytes 26-28. -/
theorem readSysParaResult_from_payload_fields
    (b0 b1 b2 b3 b4 b5 b6 b7 b8 b9 b10 b11 b12 b13
     b14 b15 b16 b17 b18 b19 b20 b21 b22 b23 b24 b25 b26 b27 : Nat)
    (rest : List Nat) :
    ReadSysParaResult.from_payload
      (b0 :: b1 :: b2 :: b3 :: b4 :: b5 :: b6 :: b7 :: b8 :: b9 :: b10 :: b11 ::
       b12 :: b13 :: b14 :: b15 :: b16 :: b17 :: b18 :: b19 :: b20 :: b21 ::
       b22 :: b23 :: b24 :: b25 :: b26 :: b27 :: rest) =
    (SystemParameters.from_payload
        [b10, b11, b12, b13, b14, b15, b16, b17,
         b18, b19, b20, b21, b22, b23, b24, b25]).bind fun sp =>
      ROut.ok {
        address := ((b2 * 256 + b3) * 256 + b4) * 256 + b5,
        confirmation_code := b9,
        system_parameters := sp,
        checksum := b26 * 256 + b27 } := rfl

/-- C10: for every body of at least 16 bytes, the decoded `SystemParameters`
satisfies baud_setting = packet_size, because the 16-bit read over the
slice 12..16 consumes only bytes 12-14, the same bytes packet_size reads. -/
theorem baud_setting_eq_packet_size
    (b0 b1 b2 b3 b4 b5 b6 b7 b8 b9 b10 b11 b12 b13 b14 b15 : Nat)
    (rest : List Nat) :
    ∃ sp : SystemParameters,
      SystemParameters.from_payload
        (b0 :: b1 :: b2 :: b3 :: b4 :: b5 :: b6 :: b7 :: b8 :: b9 :: b10 ::
         b11 :: b12 :: b13 :: b14 :: b15 :: rest) = ROut.ok sp
      ∧ sp.baud_setting = sp.packet_size :=
  ⟨_, rfl, rfl⟩

/-- C8: `ReadSysParaResult.from_payload` validates neither the confirmation
code nor the checksum: any payload of at least 28 bytes decodes successfully,
whatever the byte at offset 9 and the checksum bytes hold, and the decoded
confirmation_code equals that raw byte. -/
theorem readSysParaResult_no_validation
    (b0 b1 b2 b3 b4 b5 b6 b7 b8 b9 b10 b11 b12 b13
     b14 b15 b16 b17 b18 b19 b20 b21 b22 b23 b24 b25 b26 b27 : Nat)
    (rest : List Nat) :
    ∃ r : ReadSysParaResult,
      ReadSysParaResult.from_payload
        (b0 :: b1 :: b2 :: b3 :: b4 :: b5 :: b6 :: b7 :: b8 :: b9 :: b10 ::
         b11 :: b12 :: b13 :: b14 :: b15 :: b16 :: b17 :: b18 :: b19 :: b20 ::
         b21 :: b22 :: b23 :: b24 :: b25 :: b26 :: b27 :: rest) = ROut.ok r
      ∧ r.confirmation_code = b9 :=
  ⟨_, rfl, rfl⟩

/-- C9: every 28-byte payload that begins with the 20 bytes
EF 01 00 00 00 01 01 00 13 0F 00 01 00 00 00 C8 00 03 00 06 decodes to a
result whose address equals 1 and whose system_parameters.status_register
equals 0x0001 (busy only). -/
theorem readSysParaResult_concrete_scenario
    (b20 b21 b22 b23 b24 b25 b26 b27 : Nat) :
    ∃ r : ReadSysParaResult,
      ReadSysParaResult.from_payload
        [0xEF, 0x01, 0x00, 0x00, 0x00, 0x01, 0x01, 0x00, 0x13, 0x0F,
         0x00, 0x01, 0x00, 0x00, 0x00, 0xC8, 0x00, 0x03, 0x00, 0x06,
         b20, b21, b22, b23, b24, b25, b26, b27] = ROut.ok r
      ∧ r.address = 1 ∧ r.system_parameters.status_register = 1 :=
  ⟨_, rfl, rfl, rfl⟩

/-- C3: `PasswordVerificationState.fromByte` maps 0x00 to Correct, 0x13 to
Incorrect and 0x01 to Error, and on every other byte it fails (panics)
rather than returning a value. -/
theorem passwordVerificationState_fromByte_spec :
    PasswordVerificationState.fromByte 0x00 = ROut.ok PasswordVerificationState.Correct
    ∧ PasswordVerificationState.fromByte 0x13 = ROut.ok PasswordVerificationState.Incorrect
    ∧ PasswordVerificationState.fromByte 0x01 = ROut.ok PasswordVerificationState.Error
    ∧ ∀ b : Nat, b < 256 → b ≠ 0x00 → b ≠ 0x01 → b ≠ 0x13 →
        (PasswordVerificationState.fromByte b).isPanicked = true := by
  refine ⟨rfl, rfl, rfl, ?_⟩
  intro b _ h0 h1 h19
  simp [PasswordVerificationState.fromByte, h0, h1, h19, ROut.isPanicked]

/-- C3 witness: the byte 0x14 is out of domain, so the conversion fails. -/
theorem passwordVerificationState_fromByte_spec_witness :
    (PasswordVerificationState.fromByte 0x14).isPanicked = true :=
  passwordVerificationState_fromByte_spec.2.2.2 0x14
    (by decide) (by decide) (by decide) (by decide)

/-- C4: `GenImgStatus.fromByte` maps 0x00 to Success, 0x01 to PacketError,
0x02 to FingerNotDetected and 0x03 to ImageNotCaptured, and on every other
byte it fails (panics) rather than returning a value. -/
theorem genImgStatus_fromByte_spec :
    GenImgStatus.fromByte 0x00 = ROut.ok GenImgStatus.Success
    ∧ GenImgStatus.fromByte 0x01 = ROut.ok GenImgStatus.PacketError
    ∧ GenImgStatus.fromByte 0x02 = ROut.ok GenImgStatus.FingerNotDetected
    ∧ GenImgStatus.fromByte 0x03 = ROut.ok GenImgStatus.ImageNotCaptured
    ∧ ∀ b : Nat, b < 256 → b ≠ 0x00 → b ≠ 0x01 → b ≠ 0x02 → b ≠ 0x03 →
        (GenImgStatus.fromByte b).isPanicked = true := by
  refine ⟨rfl, rfl, rfl, rfl, ?_⟩
  intro b _ h0 h1 h2 h3
  simp [GenImgStatus.fromByte, h0, h1, h2, h3, ROut.isPanicked]

/-- C4 witness: the byte 0x76 is out of domain, so the conversion fails. -/
theorem genImgStatus_fromByte_spec_witness :
    (GenImgStatus.fromByte 0x76).isPanicked = true :=
  genImgStatus_fromByte_spec.2.2.2.2 0x76
    (by decide) (by decide) (by decide) (by decide) (by decide)

/-- C5 counterexample: on the out-of-domain bytes 0x02 and 0x04 the
conversions panic (process abort), they do not return a result/error
value the caller could react to. -/
theorem conversions_panic_counterexample :
    (PasswordVerificationState.fromByte 0x02).isPanicked = true
    ∧ (GenImgStatus.fromByte 0x04).isPanicked = true := by
  decide

/-- C5 amended: on every out-of-domain byte, both byte-to-enum conversions
abort via panic rather than returning a result/error value. -/
theorem conversions_abort_on_out_of_domain (b : Nat) (_hb : b < 256) :
    (b ≠ 0x00 → b ≠ 0x01 → b ≠ 0x13 →
       (PasswordVerificationState.fromByte b).isPanicked = true)
    ∧ (b ≠ 0x00 → b ≠ 0x01 → b ≠ 0x02 → b ≠ 0x03 →
       (GenImgStatus.fromByte b).isPanicked = true) := by
  constructor
  · intro h0 h1 h19
    simp [PasswordVerificationState.fromByte, h0, h1, h19, ROut.isPanicked]
  · intro h0 h1 h2 h3
    simp [GenImgStatus.fromByte, h0, h1, h2, h3, ROut.isPanicked]

/-- C5 witness: both conversions panic on the out-of-domain byte 0x37. -/
theorem conversions_abort_on_out_of_domain_witness :
    (PasswordVerificationState.fromByte 0x37).isPanicked = true
    ∧ (GenImgStatus.fromByte 0x37).isPanicked = true :=
  ⟨(conversions_abort_on_out_of_domain 0x37 (by decide)).1
      (by decide) (by decide) (by decide),
   (conversions_abort_on_out_of_domain 0x37 (by decide)).2
      (by decide) (by decide) (by decide) (by decide)⟩

/-- C6: decoding any payload shorter than 28 bytes through the ReadSysPara
path fails: the checked read of the checksum slice 26..28 cannot be served,
so the decode ends in a panic outcome and, all accesses in the embedding
being bounds-checked, no byte past the end of the buffer is ever read. -/
theorem readSysParaResult_truncated_fails (p : List Nat) (h : p.length < 28) :
    (ReadSysParaResult.from_payload p).isPanicked = true := by
  unfold ReadSysParaResult.from_payload
  apply bind_isPanicked_of_forall; intro a0
  apply bind_isPanicked_of_forall; intro address
  apply bind_isPanicked_of_forall; intro cc
  apply bind_isPanicked_of_left
  have hn : takeExact 2 (p.drop 26) = none := by
    apply takeExact_eq_none
    simp only [List.length_drop]
    omega
  simp [sliceIdx, hn, ROut.isPanicked]

/-- C6 witness: a 27-byte payload fails to decode. -/
theorem readSysParaResult_truncated_fails_witness :
    (ReadSysParaResult.from_payload (List.replicate 27 0)).isPanicked = true :=
  readSysParaResult_truncated_fails (List.replicate 27 0) (by decide)

/-- C7: over any status register, busy tests bit 0, has_finger_match bit 1,
password_ok bit 2 and has_valid_image bit 3; the predicates are independent
(bit 0 alone makes busy true and the rest false, all four bits make all four
true, no bits make all four false) and higher bits never affect them (each
predicate only depends on the register modulo 16). -/
theorem status_register_bit_predicates :
    (∀ sp : SystemParameters,
        sp.busy = sp.status_register.testBit 0
      ∧ sp.has_finger_match = sp.status_register.testBit 1
      ∧ sp.password_ok = sp.status_register.testBit 2
      ∧ sp.has_valid_image = sp.status_register.testBit 3)
    ∧ ((withStatus 1).busy = true ∧ (withStatus 1).has_finger_match = false
      ∧ (withStatus 1).password_ok = false ∧ (withStatus 1).has_valid_image = false)
    ∧ ((withStatus 15).busy = true ∧ (withStatus 15).has_finger_match = true
      ∧ (withStatus 15).password_ok = true ∧ (withStatus 15).has_valid_image = true)
    ∧ ((withStatus 0).busy = false ∧ (withStatus 0).has_finger_match = false
      ∧ (withStatus 0).password_ok = false ∧ (withStatus 0).has_valid_image = false)
    ∧ (∀ s : Nat,
        (withStatus (s % 16)).busy = (withStatus s).busy
      ∧ (withStatus (s % 16)).has_finger_match = (withStatus s).has_finger_match
      ∧ (withStatus (s % 16)).password_ok = (withStatus s).password_ok
      ∧ (withStatus (s % 16)).has_valid_image = (withStatus s).has_valid_image) := by
  have hmod : ∀ (s k : Nat), k < 4 → (s % 16).testBit k = s.testBit k := by
    intro s k hk
    rw [show (16 : Nat) = 2 ^ 4 from rfl, Nat.testBit_mod_two_pow]
    simp [hk]
  refine ⟨?_, by decide, by decide, by decide, ?_⟩
  · intro sp
    refine ⟨?_, ?_, ?_, ?_⟩ <;>
      simp only [SystemParameters.busy, SystemParameters.has_finger_match,
        SystemParameters.password_ok, SystemParameters.has_valid_image,
        mask_ne_eq_testBit]
  · intro s
    have h0 := hmod s 0 (by decide)
    have h1 := hmod s 1 (by decide)
    have h2 := hmod s 2 (by decide)
    have h3 := hmod s 3 (by decide)
    simp only [SystemParameters.busy, SystemParameters.has_finger_match,
      SystemParameters.password_ok, SystemParameters.has_valid_image,
      withStatus, mask_ne_eq_testBit]
    exact ⟨h0, h1, h2, h3⟩
